import Mathlib

/-!
Verification of the recording-session state machine and capability
negotiation logic of `src/static/js/recorder.js` (class `AudioRecorder`).

The source file defines `startRecording`, `processRecording`,
`stopRecording`, `downloadRecording`, `updateUI` and `updateStatus` twice;
at runtime the later definition of each silently wins, so this development
embeds the later bodies throughout (lines 547-612, 614-632, 634-647,
649-679, 681-688, 690-710).

Binary chunks (JS `Blob` data) are modelled as `List Nat` byte lists; a
`Blob` built from a list of chunks is their concatenation, and `Blob.size`
is the byte length.  Streams are modelled by numeric ids handed out by a
monotone counter, with the set of acquired-but-not-yet-released streams
tracked in the state.  Asynchronous callbacks (`ondataavailable`,
`onstop`, the retry timeout) are modelled as separate events / explicit
loops, matching the single-threaded event-driven execution of the source.
-/

namespace Recorder

/-! ### String helpers (models of JS string operations, structural so the
kernel can evaluate them) -/

/-- Characters of `l` strictly before the first occurrence of `stop`
(the whole list if `stop` does not occur). -/
def takeUntil (stop : Char) : List Char → List Char
  | [] => []
  | c :: cs => if c = stop then [] else c :: takeUntil stop cs

/-- Characters of `l` strictly after the first occurrence of `stop`
(empty if `stop` does not occur). -/
def dropThrough (stop : Char) : List Char → List Char
  | [] => []
  | c :: cs => if c = stop then cs else dropThrough stop cs

/-- Model of `mime.split('/')[1].split(';')[0]` (recorder.js:661): the
subtype of a mime type, before any codec parameters.  All mime strings the
program handles contain a `/`. -/
def extensionOf (mime : String) : String :=
  String.mk (takeUntil ';' (takeUntil '/' (dropThrough '/' mime.toList)))

def charListStartsWith : List Char → List Char → Bool
  | [], _ => true
  | _ :: _, [] => false
  | a :: as, b :: bs => a = b && charListStartsWith as bs

def charListIncludes (sub : List Char) : List Char → Bool
  | [] => sub.isEmpty
  | c :: cs => charListStartsWith sub (c :: cs) || charListIncludes sub cs

/-- Model of JS `s.includes(sub)` (recorder.js:662). -/
def strIncludes (s sub : String) : Bool :=
  charListIncludes sub.toList s.toList

/-! ### Capability negotiation (recorder.js:105-144, `getSupportedMimeTypes`) -/

/-- Model of `defaultMimeTypes.default` (recorder.js:110). -/
def defaultMimeTypes : List String :=
  ["audio/webm", "audio/ogg", "audio/wav", "audio/mp4"]

/-- The per-family preference lists of recorder.js:106-111;
`defaultMimeTypes[this.browserInfo.name] || defaultMimeTypes.default`
(recorder.js:114). -/
def preferredTypes (name : String) : List String :=
  if name = "chrome" then ["audio/webm", "audio/webm;codecs=opus"]
  else if name = "firefox" then ["audio/ogg", "audio/ogg;codecs=opus", "audio/webm"]
  else if name = "safari" then ["audio/mp4", "audio/wav"]
  else defaultMimeTypes

/-- First-seen-order deduplication, the behaviour of
`[...new Set([...preferredTypes, ...defaultMimeTypes.default])]`
(recorder.js:117-120); `seen` accumulates the elements already emitted. -/
def dedupFirstAux (seen : List String) : List String → List String
  | [] => []
  | x :: xs =>
    if x ∈ seen then dedupFirstAux seen xs
    else x :: dedupFirstAux (x :: seen) xs

def dedupFirst (l : List String) : List String := dedupFirstAux [] l

/-- Model of `allTypes` (recorder.js:117-120): preference list then fallback list,
duplicates removed keeping first occurrences. -/
def allTypes (name : String) : List String :=
  dedupFirst (preferredTypes name ++ defaultMimeTypes)

/-- Model of `supported` (recorder.js:123-129): the candidates the runtime support
predicate `p` accepts; a predicate that throws is caught and treated as
unsupported, so `p` is total here. -/
def supportedOf (name : String) (p : String → Bool) : List String :=
  (allTypes name).filter p

/-- Model of `this.primaryMimeType` as assigned at recorder.js:133-135:
`supported.find(type => preferredTypes.includes(type)) || supported[0]`,
as an `Option` (`none` when `supported` is empty and the assignment is
skipped). -/
def primaryOf (name : String) (p : String → Bool) : Option String :=
  let s := supportedOf name p
  match s.find? (fun t => decide (t ∈ preferredTypes name)) with
  | some t => some t
  | none => s.head?

/-! ### Session state (fields of the `AudioRecorder` instance plus the
observable DOM / resource environment it mutates) -/

/-- A `MediaRecorder` object: the stream it consumes (by id) and the
`mimeType` it was created with. -/
structure MRec where
  streamId : Nat
  mimeType : String
deriving DecidableEq, Repr

/-- The mutable fields of the `AudioRecorder` instance (recorder.js:4-11,
93, 133) together with the DOM state it drives and a model of the
device-stream resource: `liveStreams` lists the ids of device streams
acquired by `getUserMedia` and not yet released by `releaseStream`;
`nextStreamId` feeds fresh ids.  `negotiations` and
`acquisitionAttempts` are ghost counters recording how many times
`getSupportedMimeTypes` ran and how many `getUserMedia` calls were made.
`scheduledRetry` models a pending `streamRetryTimeout` (recorder.js:526). -/
structure RecorderState where
  mediaRecorder : Option MRec
  audioChunks : List (List Nat)
  isRecording : Bool
  permissionGranted : Bool
  retryAttempts : Nat
  maxRetryAttempts : Nat
  connectionMonitoring : Bool
  browserName : String
  supportedMimeTypes : List String
  primaryMimeType : Option String
  statusMessage : String
  statusKind : String
  permissionSectionVisible : Bool
  permissionSectionKind : String
  recordButtonDisabled : Bool
  stopButtonDisabled : Bool
  artifact : Option (List Nat × String)
  artifactVisible : Bool
  liveStreams : List Nat
  nextStreamId : Nat
  scheduledRetry : Bool
  negotiations : Nat
  acquisitionAttempts : Nat
deriving DecidableEq, Repr

/-- The runtime environment the recorder interacts with: whether the
required browser features exist (recorder.js:17-21), the
`MediaRecorder.isTypeSupported` predicate (recorder.js:125), whether the
`getUserMedia` call at (zero-based) retry count `k` yields a valid stream
(`outcome k`, recorder.js:464-474), and whether `new MediaRecorder` with a
given mime type succeeds (recorder.js:567-583). -/
structure Env where
  featuresOk : Bool
  isTypeSupported : String → Bool
  outcome : Nat → Bool
  createOk : String → Bool

/-- Constructor-time field values (recorder.js:4-11), parametrised by the
detected browser name. -/
def initialState (name : String) : RecorderState where
  mediaRecorder := none
  audioChunks := []
  isRecording := false
  permissionGranted := false
  retryAttempts := 0
  maxRetryAttempts := 3
  connectionMonitoring := false
  browserName := name
  supportedMimeTypes := []
  primaryMimeType := none
  statusMessage := ""
  statusKind := ""
  permissionSectionVisible := false
  permissionSectionKind := ""
  recordButtonDisabled := false
  stopButtonDisabled := true
  artifact := none
  artifactVisible := false
  liveStreams := []
  nextStreamId := 0
  scheduledRetry := false
  negotiations := 0
  acquisitionAttempts := 0

/-! ### UI helpers (later definitions win: recorder.js:681-710) -/

/-- Model of `updateStatus` (recorder.js:690-710): sets the status text and the
severity styling. -/
def updateStatus (s : RecorderState) (msg kind : String) : RecorderState :=
  { s with statusMessage := msg, statusKind := kind }

/-- Model of `updateUI` (recorder.js:681-688). -/
def updateUI (s : RecorderState) (recording : Bool) : RecorderState :=
  let s := { s with recordButtonDisabled := recording, stopButtonDisabled := !recording }
  updateStatus s (if recording then "Recording in progress..." else "Recording stopped")
    (if recording then "recording" else "success")

/-- Model of `showPermissionSection` (recorder.js:402-406). -/
def showPermissionSection (s : RecorderState) (kind : String) : RecorderState :=
  { s with permissionSectionVisible := true, permissionSectionKind := kind,
           recordButtonDisabled := true }

/-- Model of `hidePermissionSection` (recorder.js:408-411). -/
def hidePermissionSection (s : RecorderState) : RecorderState :=
  { s with permissionSectionVisible := false, recordButtonDisabled := false }

/-- Model of `releaseStream` (recorder.js:497-501): stops every track of the
stream, i.e. removes it from the live set (a no-op on an already
inactive stream, matching the `stream.active` guard). -/
def releaseStream (s : RecorderState) (sid : Nat) : RecorderState :=
  { s with liveStreams := s.liveStreams.filter (fun x => decide (x ≠ sid)) }

/-! ### Capability negotiation as a state operation -/

/-- Model of `getSupportedMimeTypes` (recorder.js:105-144) run against state `s`:
returns the updated state (ghost counter bumped; `primaryMimeType`
assigned at recorder.js:133-135 only when the filtered list is
non-empty) and the returned `supported` list. -/
def getSupportedMimeTypesRun (p : String → Bool) (s : RecorderState) :
    RecorderState × List String :=
  let supported := supportedOf s.browserName p
  let s' := { s with negotiations := s.negotiations + 1 }
  if supported.isEmpty then (s', supported)
  else ({ s' with primaryMimeType := primaryOf s.browserName p }, supported)

/-- Model of `checkBrowserCompatibility` (recorder.js:79-103): feature check, then
negotiation; the boolean is the returned `supported` flag.  The feature
check happens before `getSupportedMimeTypes` is called, so a missing
feature means no negotiation runs. -/
def checkBrowserCompatibilityRun (env : Env) (s : RecorderState) :
    RecorderState × Bool :=
  if env.featuresOk then
    let r := getSupportedMimeTypesRun env.isTypeSupported s
    let s' := { r.1 with supportedMimeTypes := r.2 }
    if r.2.isEmpty then (s', false) else (s', true)
  else (s, false)

/-! ### Stream acquisition (recorder.js:462-485, `getAudioStream`) -/

/-- One run of `getAudioStream` starting at retry count `retryCount` with
`remaining = maxRetryAttempts - retryCount` retries still allowed:
returns whether a stream was obtained and how many `getUserMedia`
attempts were made.  Mirrors the recursion
`catch { if (retryCount < max) return getAudioStream(retryCount+1); throw }`. -/
def getAudioStreamGo (outcome : Nat → Bool) (retryCount : Nat) :
    Nat → Bool × Nat
  | 0 => (outcome retryCount, 1)
  | remaining + 1 =>
    if outcome retryCount then (true, 1)
    else
      let r := getAudioStreamGo outcome (retryCount + 1) remaining
      (r.1, r.2 + 1)

/-- Model of `getAudioStream()` as called with default `retryCount = 0`. -/
def getAudioStream (outcome : Nat → Bool) (maxRetryAttempts : Nat) : Bool × Nat :=
  getAudioStreamGo outcome 0 maxRetryAttempts

/-! ### Permission handling -/

/-- Model of `handlePermissionError` (recorder.js:503-534): increment
`retryAttempts`; below the ceiling show a warning and schedule a delayed
`requestPermission` (the 2s `streamRetryTimeout`), otherwise surface the
terminal error message. -/
def handlePermissionError (s : RecorderState) : RecorderState :=
  let s := { s with retryAttempts := s.retryAttempts + 1 }
  if s.retryAttempts < s.maxRetryAttempts then
    let s := updateStatus s "Could not access microphone. Retrying..." "warning"
    let s := showPermissionSection s "warning"
    { s with scheduledRetry := true }
  else
    let s := updateStatus s
      "Could not access microphone. Please check your browser settings and reload the page." "error"
    showPermissionSection s "error"

/-- Model of `requestPermission` (recorder.js:444-460): acquire a stream via
`getAudioStream` (which retries internally), release it immediately, mark
permission granted and reset the retry counter; on failure defer to
`handlePermissionError`.  The test stream is acquired and released within
the call, so `liveStreams` is unchanged while `nextStreamId` advances. -/
def requestPermission (env : Env) (s : RecorderState) : RecorderState :=
  let gas := getAudioStream env.outcome s.maxRetryAttempts
  let s := { s with acquisitionAttempts := s.acquisitionAttempts + gas.2 }
  if gas.1 then
    let s := { s with nextStreamId := s.nextStreamId + 1 }
    let s := hidePermissionSection s
    let s := updateStatus s "Ready to record" "success"
    { s with permissionGranted := true, retryAttempts := 0 }
  else
    handlePermissionError s

/-- Firing of the pending `streamRetryTimeout`s (recorder.js:526): while a
retry is scheduled, clear it and run `requestPermission` again; `fuel`
bounds the number of timer firings considered. -/
def retryLoop (env : Env) : Nat → RecorderState → RecorderState
  | 0, s => s
  | fuel + 1, s =>
    if s.scheduledRetry then
      retryLoop env fuel (requestPermission env { s with scheduledRetry := false })
    else s

/-- Model of `handlePermissionChange` (recorder.js:381-400). -/
def handlePermissionChange (s : RecorderState) (state : String) : RecorderState :=
  if state = "granted" then
    let s := { s with permissionGranted := true }
    let s := hidePermissionSection s
    let s := { s with recordButtonDisabled := false }
    updateStatus s "Ready to record" "success"
  else if state = "denied" then
    let s := { s with permissionGranted := false }
    let s := showPermissionSection s "error"
    updateStatus s "Microphone access denied. Please grant permission to continue." "error"
  else if state = "prompt" then
    let s := { s with permissionGranted := false }
    let s := showPermissionSection s "warning"
    updateStatus s "Microphone permission required" "warning"
  else s

/-- Model of `checkInitialPermissions` (recorder.js:344-360): `live` is the result
of the `navigator.permissions.query` call, `none` when the query throws
(the catch branch).  The `onchange` subscription and
`updateBrowserInstructions` touch no modelled state. -/
def checkInitialPermissions (live : Option String) (s : RecorderState) : RecorderState :=
  match live with
  | some st => handlePermissionChange s st
  | none =>
    let s := showPermissionSection s "error"
    updateStatus s
      "Permission check failed. Please ensure your browser supports microphone access." "error"

/-- Model of `loadPersistedPermissionState` (recorder.js:370-379): `saved` is
`localStorage.getItem('microphonePermission')`; when present it is fed to
`handlePermissionChange`. -/
def loadPersistedPermissionState (saved : Option String) (s : RecorderState) : RecorderState :=
  match saved with
  | some st => handlePermissionChange s st
  | none => s

/-- Model of `initRecorder` (recorder.js:38-49): compatibility check, then
`checkInitialPermissions` (live query), then — afterwards —
`loadPersistedPermissionState` (persisted cache). -/
def initRecorder (env : Env) (live saved : Option String)
    (s : RecorderState) : RecorderState :=
  let r := checkBrowserCompatibilityRun env s
  if r.2 then
    loadPersistedPermissionState saved (checkInitialPermissions live r.1)
  else
    updateStatus r.1
      "Your browser is missing required features. Please use a modern browser." "error"

/-! ### Recording lifecycle (later definitions: recorder.js:547-710) -/

/-- Model of `stopRecording` (recorder.js:634-647): guarded by
`this.mediaRecorder && this.isRecording`; stops the recorder (the
asynchronous `onstop` callback is a separate event, `onstopEvent` below),
clears the flag, updates the UI and releases the recorder's stream. -/
def stopRecording (s : RecorderState) : RecorderState :=
  match s.mediaRecorder with
  | some m =>
    if s.isRecording then
      let s := { s with isRecording := false }
      let s := updateUI s false
      releaseStream s m.streamId
    else s
  | none => s

/-- Model of `stopConnectionMonitoring` (recorder.js:437-442). -/
def stopConnectionMonitoring (s : RecorderState) : RecorderState :=
  { s with connectionMonitoring := false }

/-- Model of `processRecording` (the later, winning definition: recorder.js:614-632):
builds a Blob from all buffered chunks with the recorder's mime type
(falling back to `primaryMimeType`), revokes the previously exposed
object URL, exposes the new artifact and unhides the player.  Note: no
empty-buffer guard (unlike the shadowed earlier definition at
recorder.js:282-302). -/
def processRecording (s : RecorderState) : RecorderState :=
  let mime := match s.mediaRecorder with
    | some m => m.mimeType
    | none => s.primaryMimeType.getD ""
  { s with artifact := some (s.audioChunks.flatten, mime), artifactVisible := true }

/-- The `mediaRecorder.onstop` handler installed by the winning
`startRecording` (recorder.js:593-596). -/
def onstopEvent (s : RecorderState) : RecorderState :=
  processRecording (stopConnectionMonitoring s)

/-- The `mediaRecorder.ondataavailable` handler (recorder.js:587-591):
chunks of size zero are discarded. -/
def ondataavailable (s : RecorderState) (data : List Nat) : RecorderState :=
  if data.length > 0 then { s with audioChunks := s.audioChunks ++ [data] } else s

/-- Model of `handleRecordingError` (recorder.js:536-545): stop (if recording),
surface the error, release the current recorder's stream if any. -/
def handleRecordingError (s : RecorderState) : RecorderState :=
  let s := stopRecording s
  let s := updateStatus s "Recording failed. Please try again." "error"
  match s.mediaRecorder with
  | some m => releaseStream s m.streamId
  | none => s

/-- Tail of `startRecording` once a `MediaRecorder` was created with mime
type `mime` on stream `sid` (recorder.js:585-606): clear the chunk
buffer, install the handlers, start the recorder, set the flag, update
the UI and start the liveness interval. -/
def startWithRecorder (s : RecorderState) (sid : Nat) (mime : String) : RecorderState :=
  let s := { s with mediaRecorder := some ⟨sid, mime⟩, audioChunks := [] }
  let s := { s with isRecording := true }
  let s := updateUI s true
  { s with connectionMonitoring := true }

/-- The `MediaRecorder`-creation step of `startRecording`
(recorder.js:566-583): try the primary mime type, fall back once to the
first supported type different from the primary; a second failure (or no
fallback) throws into `handleRecordingError`.  The `none` branch of the
outer match is unreachable after a successful compatibility check, which
always assigns `primaryMimeType`; it mirrors `new MediaRecorder` throwing
on an undefined mime type. -/
def startCreatePhase (env : Env) (s : RecorderState) (sid : Nat) : RecorderState :=
  match s.primaryMimeType with
  | some pm =>
    if env.createOk pm then startWithRecorder s sid pm
    else
      match s.supportedMimeTypes.find? (fun t => decide (t ≠ pm)) with
      | some fb =>
        if env.createOk fb then startWithRecorder s sid fb
        else handleRecordingError s
      | none => handleRecordingError s
  | none => handleRecordingError s

/-- The stream-acquisition step of `startRecording` (recorder.js:560-564):
`getAudioStream` (with its internal retries), then creation; an
acquisition failure throws into `handleRecordingError`. -/
def startAcquirePhase (env : Env) (s : RecorderState) : RecorderState :=
  let gas := getAudioStream env.outcome s.maxRetryAttempts
  let s := { s with acquisitionAttempts := s.acquisitionAttempts + gas.2 }
  if gas.1 then
    let sid := s.nextStreamId
    let s := { s with nextStreamId := sid + 1,
                      liveStreams := s.liveStreams ++ [sid] }
    startCreatePhase env s sid
  else
    handleRecordingError s

/-- The permission step of `startRecording` (recorder.js:554-557):
request permission when not yet granted; bail out if still not granted. -/
def startPermissionPhase (env : Env) (s : RecorderState) : RecorderState :=
  let s := if s.permissionGranted then s else requestPermission env s
  if !s.permissionGranted then s else startAcquirePhase env s

/-- Model of `startRecording` (the later, winning definition: recorder.js:547-612).
Re-runs `checkBrowserCompatibility` (and hence capability negotiation),
then the permission, acquisition and creation phases above.  There is no
guard against being invoked while a recording is already in progress. -/
def startRecording (env : Env) (s : RecorderState) : RecorderState :=
  let r := checkBrowserCompatibilityRun env s
  if !r.2 then
    updateStatus r.1
      "Your browser is missing required features. Please use a modern browser." "error"
  else
    startPermissionPhase env r.1

/-- Model of `downloadRecording` (the later definition: recorder.js:649-679), as
the download it produces: `none` when the chunk buffer is empty (early
return), otherwise the anchor's filename and the Blob content.  The
operation does not mutate the session state. -/
def downloadRecording (s : RecorderState) : Option (String × List Nat) :=
  if s.audioChunks.isEmpty then none
  else
    let mime := match s.mediaRecorder with
      | some m => m.mimeType
      | none => s.primaryMimeType.getD ""
    let ext := extensionOf mime
    let ext := if ext = "webm" && !(strIncludes s.browserName "chrome") then "wav" else ext
    some ("recording." ++ ext, s.audioChunks.flatten)

/-- The extension computation of `downloadRecording` in isolation
(recorder.js:661-664). -/
def downloadExtensionOf (name mime : String) : String :=
  let ext := extensionOf mime
  if ext = "webm" && !(strIncludes name "chrome") then "wav" else ext

/-! ### Environment fixtures used by concrete runs -/

/-- An environment in which everything succeeds. -/
def goodEnv : Env where
  featuresOk := true
  isTypeSupported := fun _ => true
  outcome := fun _ => true
  createOk := fun _ => true

/-- An environment in which every `getUserMedia` attempt fails (the user
keeps denying, or no device is present). -/
def failEnv : Env where
  featuresOk := true
  isTypeSupported := fun _ => true
  outcome := fun _ => false
  createOk := fun _ => true


/-! ### Further definitions used by the claims -/

/-- The closed set of recognised runtime families (recorder.js:62-74;
anything else is reported as `unknown`). -/
def knownFamilies : List String := ["chrome", "firefox", "safari"]

/-- The buffer invariant: every chunk in the captured segment buffer has
strictly positive size. -/
def chunksPos (s : RecorderState) : Prop := ∀ c ∈ s.audioChunks, 0 < c.length

instance (s : RecorderState) : Decidable (chunksPos s) :=
  inferInstanceAs (Decidable (∀ c ∈ s.audioChunks, 0 < c.length))

/-! ### Lemmas about negotiation -/

theorem mem_dedupFirstAux {a : String} {seen l : List String} :
    a ∈ dedupFirstAux seen l ↔ a ∈ l ∧ a ∉ seen := by
  induction l generalizing seen with
  | nil => simp [dedupFirstAux]
  | cons x xs ih =>
    by_cases hx : x ∈ seen
    · rw [dedupFirstAux, if_pos hx, ih]
      constructor
      · rintro ⟨h1, h2⟩
        exact ⟨List.mem_cons_of_mem _ h1, h2⟩
      · rintro ⟨h1, h2⟩
        rcases List.mem_cons.mp h1 with rfl | h1
        · exact absurd hx h2
        · exact ⟨h1, h2⟩
    · rw [dedupFirstAux, if_neg hx]
      constructor
      · intro hmem
        rcases List.mem_cons.mp hmem with rfl | hmem
        · exact ⟨List.mem_cons_self _ _, hx⟩
        · obtain ⟨h1, h2⟩ := ih.mp hmem
          refine ⟨List.mem_cons_of_mem _ h1, fun hs => h2 (List.mem_cons_of_mem _ hs)⟩
      · rintro ⟨h1, h2⟩
        rcases List.mem_cons.mp h1 with rfl | h1
        · exact List.mem_cons_self _ _
        · by_cases hax : a = x
          · exact hax ▸ List.mem_cons_self _ _
          · refine List.mem_cons_of_mem _ (ih.mpr ⟨h1, fun hs => ?_⟩)
            rcases List.mem_cons.mp hs with h | h
            · exact hax h
            · exact h2 h

theorem mem_dedupFirst {a : String} {l : List String} :
    a ∈ dedupFirst l ↔ a ∈ l := by
  rw [dedupFirst, mem_dedupFirstAux]
  simp

theorem mem_allTypes_of_pref {name t : String} (h : t ∈ preferredTypes name) :
    t ∈ allTypes name := by
  rw [allTypes, mem_dedupFirst]
  exact List.mem_append_left _ h

theorem mem_supportedOf {name t : String} {p : String → Bool}
    (hmem : t ∈ allTypes name) (hp : p t = true) :
    t ∈ supportedOf name p := by
  rw [supportedOf, List.mem_filter]
  exact ⟨hmem, hp⟩

/-! ### General helper lemmas -/

theorem getAudioStream_success (outcome : Nat → Bool) (m : Nat)
    (h : outcome 0 = true) : getAudioStream outcome m = (true, 1) := by
  cases m <;> simp [getAudioStream, getAudioStreamGo, h]

theorem primaryOf_isSome (name : String) (p : String → Bool)
    (h : supportedOf name p ≠ []) : ∃ pm, primaryOf name p = some pm := by
  rw [primaryOf]
  cases hf : (supportedOf name p).find? (fun t => decide (t ∈ preferredTypes name)) with
  | some t => exact ⟨t, rfl⟩
  | none =>
    cases hs : supportedOf name p with
    | nil => exact absurd hs h
    | cons a l => exact ⟨a, rfl⟩

theorem preferredTypes_ne_nil (name : String) : preferredTypes name ≠ [] := by
  rw [preferredTypes]
  split
  · simp
  · split
    · simp
    · split <;> simp [defaultMimeTypes]

/-! ### Characterization of the successful paths -/

theorem getSupportedMimeTypesRun_ok (p : String → Bool) (s : RecorderState)
    (hsup : supportedOf s.browserName p ≠ []) :
    getSupportedMimeTypesRun p s =
      ({ s with negotiations := s.negotiations + 1,
                primaryMimeType := primaryOf s.browserName p },
       supportedOf s.browserName p) := by
  rw [getSupportedMimeTypesRun]
  rw [if_neg (by simpa using hsup)]

theorem checkBrowserCompatibilityRun_ok (env : Env) (s : RecorderState)
    (hf : env.featuresOk = true)
    (hsup : supportedOf s.browserName env.isTypeSupported ≠ []) :
    checkBrowserCompatibilityRun env s =
      ({ s with negotiations := s.negotiations + 1,
                primaryMimeType := primaryOf s.browserName env.isTypeSupported,
                supportedMimeTypes := supportedOf s.browserName env.isTypeSupported }, true) := by
  rw [checkBrowserCompatibilityRun, if_pos hf, getSupportedMimeTypesRun_ok _ _ hsup]
  dsimp only
  rw [if_neg (by simpa using hsup)]

/-- Run of the winning `startRecording` when everything succeeds: the
compatibility check re-runs negotiation, permission is already granted,
the first `getUserMedia` attempt yields a stream, and `MediaRecorder`
creation with the primary mime type succeeds. -/
theorem startRecording_success_run (env : Env) (s : RecorderState) (pm : String)
    (hf : env.featuresOk = true)
    (hsup : supportedOf s.browserName env.isTypeSupported ≠ [])
    (hperm : s.permissionGranted = true)
    (hout : env.outcome 0 = true)
    (hpm : primaryOf s.browserName env.isTypeSupported = some pm)
    (hcr : env.createOk pm = true) :
    startRecording env s = startWithRecorder
      { s with negotiations := s.negotiations + 1,
               primaryMimeType := some pm,
               supportedMimeTypes := supportedOf s.browserName env.isTypeSupported,
               acquisitionAttempts := s.acquisitionAttempts + 1,
               nextStreamId := s.nextStreamId + 1,
               liveStreams := s.liveStreams ++ [s.nextStreamId] }
      s.nextStreamId pm := by
  rw [startRecording, checkBrowserCompatibilityRun_ok env s hf hsup]
  dsimp only
  rw [startPermissionPhase]
  dsimp only
  simp only [hperm, if_true]
  rw [startAcquirePhase]
  dsimp only
  rw [getAudioStream_success env.outcome _ hout]
  dsimp only
  rw [startCreatePhase]
  dsimp only
  rw [hpm]
  dsimp only
  rw [if_pos hcr]
  simp [hperm]

/-! ### Negotiation-counter lemmas (for C4) -/

theorem negotiations_handlePermissionError (s : RecorderState) :
    (handlePermissionError s).negotiations = s.negotiations := by
  rw [handlePermissionError]
  split <;> rfl

theorem negotiations_requestPermission (env : Env) (s : RecorderState) :
    (requestPermission env s).negotiations = s.negotiations := by
  rw [requestPermission]
  split
  · rfl
  · rw [negotiations_handlePermissionError]

theorem negotiations_stopRecording (s : RecorderState) :
    (stopRecording s).negotiations = s.negotiations := by
  rw [stopRecording]
  split
  · split <;> rfl
  · rfl

theorem negotiations_handleRecordingError (s : RecorderState) :
    (handleRecordingError s).negotiations = s.negotiations := by
  rw [handleRecordingError]
  split <;> simp [releaseStream, updateStatus, negotiations_stopRecording]

theorem negotiations_handlePermissionChange (s : RecorderState) (st : String) :
    (handlePermissionChange s st).negotiations = s.negotiations := by
  rw [handlePermissionChange]
  split <;> try rfl
  split <;> try rfl
  split <;> rfl

theorem negotiations_startCreatePhase (env : Env) (s : RecorderState) (sid : Nat) :
    (startCreatePhase env s sid).negotiations = s.negotiations := by
  rw [startCreatePhase]
  split
  · split
    · rfl
    · split
      · split
        · rfl
        · exact negotiations_handleRecordingError s
      · exact negotiations_handleRecordingError s
  · exact negotiations_handleRecordingError s

theorem negotiations_startAcquirePhase (env : Env) (s : RecorderState) :
    (startAcquirePhase env s).negotiations = s.negotiations := by
  rw [startAcquirePhase]
  dsimp only
  split
  · exact negotiations_startCreatePhase env _ _
  · exact negotiations_handleRecordingError _

theorem negotiations_startPermissionPhase (env : Env) (s : RecorderState) :
    (startPermissionPhase env s).negotiations = s.negotiations := by
  rw [startPermissionPhase]
  split
  · rename_i hp
    simp only [hp, Bool.not_true, Bool.false_eq_true, if_false]
    exact negotiations_startAcquirePhase env s
  · split
    · exact negotiations_requestPermission env s
    · rw [negotiations_startAcquirePhase, negotiations_requestPermission]

theorem negotiations_getSupportedMimeTypesRun (p : String → Bool) (s : RecorderState) :
    (getSupportedMimeTypesRun p s).1.negotiations = s.negotiations + 1 := by
  rw [getSupportedMimeTypesRun]
  split <;> rfl

theorem negotiations_checkBrowserCompatibilityRun (env : Env) (s : RecorderState)
    (hf : env.featuresOk = true) :
    (checkBrowserCompatibilityRun env s).1.negotiations = s.negotiations + 1 := by
  rw [checkBrowserCompatibilityRun, if_pos hf]
  dsimp only
  split <;> exact negotiations_getSupportedMimeTypesRun _ _

theorem negotiations_loadPersistedPermissionState (saved : Option String)
    (s : RecorderState) :
    (loadPersistedPermissionState saved s).negotiations = s.negotiations := by
  cases saved with
  | none => rfl
  | some st => exact negotiations_handlePermissionChange _ _

theorem negotiations_checkInitialPermissions (live : Option String)
    (s : RecorderState) :
    (checkInitialPermissions live s).negotiations = s.negotiations := by
  cases live with
  | none => rfl
  | some st => exact negotiations_handlePermissionChange _ _

/-! ### Claim C1 -/

/-- C1 counterexample: with permission granted, start the session twice in
immediate succession (no intervening stop) in an environment where every
operation succeeds.  After the first start exactly one device stream is
live; after the second start two device streams are live — the stream
held by the first capture session was never released and a second one was
acquired, and the capture session object was replaced by a new one on the
fresh stream.  This contradicts the claim that the second start is
ignored or queued leaving exactly one active stream with no leak. -/
theorem C1_double_start_counterexample :
    (let s0 := initRecorder goodEnv (some "granted") none (initialState "chrome")
     let s1 := startRecording goodEnv s0
     let s2 := startRecording goodEnv s1
     s1.isRecording = true ∧ s1.liveStreams = [0] ∧
     s1.mediaRecorder = some ⟨0, "audio/webm"⟩ ∧
     s2.liveStreams = [0, 1] ∧ s2.liveStreams.length = 2 ∧
     s2.mediaRecorder = some ⟨1, "audio/webm"⟩) := by
  decide

/-- C1 amended: a start request arriving while a recording is in progress
is not ignored or queued: it re-runs the compatibility check, acquires a
fresh device stream (appended to the live set — every previously live
stream, in particular the one held by the in-progress recording, stays
live and is never released), replaces the capture session with a new one
on the fresh stream, and clears the chunk buffer. -/
theorem C1_second_start_acquires_and_leaks (env : Env) (s : RecorderState)
    (hrec : s.isRecording = true)
    (hf : env.featuresOk = true)
    (hsup : supportedOf s.browserName env.isTypeSupported ≠ [])
    (hperm : s.permissionGranted = true)
    (hout : env.outcome 0 = true)
    (hcr : ∀ m, env.createOk m = true) :
    (startRecording env s).liveStreams = s.liveStreams ++ [s.nextStreamId] ∧
    (startRecording env s).isRecording = true ∧
    (startRecording env s).audioChunks = [] ∧
    ∃ pm, primaryOf s.browserName env.isTypeSupported = some pm ∧
      (startRecording env s).mediaRecorder = some ⟨s.nextStreamId, pm⟩ := by
  obtain ⟨pm, hpm⟩ := primaryOf_isSome _ _ hsup
  rw [startRecording_success_run env s pm hf hsup hperm hout hpm (hcr pm)]
  exact ⟨rfl, rfl, rfl, pm, hpm, rfl⟩

/-- Witness for the amended C1 on a concrete in-progress recording state:
the second start leaves the old stream (id 0) live, acquires stream 1 and
replaces the recorder. -/
theorem C1_second_start_acquires_and_leaks_witness :
    (startRecording goodEnv { initialState "chrome" with
        isRecording := true, permissionGranted := true,
        mediaRecorder := some ⟨0, "audio/webm"⟩,
        liveStreams := [0], nextStreamId := 1 }).liveStreams =
      ({ initialState "chrome" with
        isRecording := true, permissionGranted := true,
        mediaRecorder := some ⟨0, "audio/webm"⟩,
        liveStreams := [0], nextStreamId := 1 } : RecorderState).liveStreams ++
        [({ initialState "chrome" with
        isRecording := true, permissionGranted := true,
        mediaRecorder := some ⟨0, "audio/webm"⟩,
        liveStreams := [0], nextStreamId := 1 } : RecorderState).nextStreamId] ∧
    (startRecording goodEnv { initialState "chrome" with
        isRecording := true, permissionGranted := true,
        mediaRecorder := some ⟨0, "audio/webm"⟩,
        liveStreams := [0], nextStreamId := 1 }).isRecording = true ∧
    (startRecording goodEnv { initialState "chrome" with
        isRecording := true, permissionGranted := true,
        mediaRecorder := some ⟨0, "audio/webm"⟩,
        liveStreams := [0], nextStreamId := 1 }).audioChunks = [] ∧
    ∃ pm, primaryOf ({ initialState "chrome" with
        isRecording := true, permissionGranted := true,
        mediaRecorder := some ⟨0, "audio/webm"⟩,
        liveStreams := [0], nextStreamId := 1 } : RecorderState).browserName
          goodEnv.isTypeSupported = some pm ∧
      (startRecording goodEnv { initialState "chrome" with
        isRecording := true, permissionGranted := true,
        mediaRecorder := some ⟨0, "audio/webm"⟩,
        liveStreams := [0], nextStreamId := 1 }).mediaRecorder =
        some ⟨({ initialState "chrome" with
        isRecording := true, permissionGranted := true,
        mediaRecorder := some ⟨0, "audio/webm"⟩,
        liveStreams := [0], nextStreamId := 1 } : RecorderState).nextStreamId, pm⟩ :=
  C1_second_start_acquires_and_leaks goodEnv
    { initialState "chrome" with
        isRecording := true, permissionGranted := true,
        mediaRecorder := some ⟨0, "audio/webm"⟩,
        liveStreams := [0], nextStreamId := 1 }
    rfl rfl (by decide) rfl rfl (fun m => rfl)

/-! ### Claim C2 -/

/-- C2 counterexample: at startup the live permission query reports
`denied` while the persisted per-origin value says `granted`.  The claim
requires the effective permission state to be the live result (not
granted, as the second conjunct shows `denied` maps to `false`), but
`initRecorder` runs `loadPersistedPermissionState` after
`checkInitialPermissions`, so the persisted cache wins and the controller
ends up with `permissionGranted = true`. -/
theorem C2_stale_cache_counterexample :
    (initRecorder goodEnv (some "denied") (some "granted")
      (initialState "chrome")).permissionGranted = true ∧
    (handlePermissionChange (initialState "chrome") "denied").permissionGranted = false := by
  decide

/-- C2 amended: the persisted per-origin value is applied after (not
before) the live query at startup, so whenever a persisted value exists
it overrides the live query result: the controller's effective permission
state after startup is determined by the persisted cached value alone. -/
theorem C2_persisted_cache_wins (env : Env) (s : RecorderState)
    (live saved : String)
    (hf : env.featuresOk = true)
    (hsup : supportedOf s.browserName env.isTypeSupported ≠ [])
    (hsaved : saved = "granted" ∨ saved = "denied" ∨ saved = "prompt") :
    (initRecorder env (some live) (some saved) s).permissionGranted =
      decide (saved = "granted") := by
  rw [initRecorder, checkBrowserCompatibilityRun_ok env s hf hsup]
  dsimp only
  rw [if_pos rfl]
  rcases hsaved with rfl | rfl | rfl <;> rfl

/-- Witness for the amended C2: live `denied`, persisted `granted`. -/
theorem C2_persisted_cache_wins_witness :
    (initRecorder goodEnv (some "denied") (some "granted")
      (initialState "firefox")).permissionGranted = decide (("granted" : String) = "granted") :=
  C2_persisted_cache_wins goodEnv (initialState "firefox") "denied" "granted"
    rfl (by decide) (Or.inl rfl)

/-! ### Claim C3 -/

/-- C3 counterexample: in an environment where every acquisition attempt
fails, a single permission request performs exactly four consecutive
failed `getUserMedia` attempts (1 initial + 3 internal retries of
`getAudioStream`) — the claim's premise — yet the controller does not
enter a terminal failed state: `handlePermissionError` has incremented
the outer retry counter only once (not on each of the four attempts),
shows a `warning`, and schedules another permission request. -/
theorem C3_retry_ceiling_counterexample :
    (let s1 := requestPermission failEnv (initialState "chrome")
     s1.acquisitionAttempts = 4 ∧ s1.retryAttempts = 1 ∧
     s1.scheduledRetry = true ∧ s1.statusKind = "warning" ∧
     ¬ s1.statusKind = "error") := by
  decide

theorem retryLoop_stable (env : Env) (fuel : Nat) (s : RecorderState)
    (h : s.scheduledRetry = false) : retryLoop env fuel s = s := by
  cases fuel with
  | zero => rfl
  | succ n => rw [retryLoop, if_neg (by simp [h])]

theorem retryLoop_step (env : Env) (fuel : Nat) (s : RecorderState)
    (h : s.scheduledRetry = true) :
    retryLoop env (fuel + 1) s =
      retryLoop env fuel (requestPermission env { s with scheduledRetry := false }) := by
  rw [retryLoop, if_pos h]

/-- C3 amended: the retry structure is two-level.  Each permission request
internally performs up to 4 `getUserMedia` attempts (1 initial + the
ceiling of 3 internal retries); each failed permission request increments
the outer retry counter once and, while the counter is below the ceiling
3, schedules one delayed (2s) retry.  When every acquisition attempt
fails, the terminal failure message therefore appears on the third failed
permission request — after 12 consecutive failed acquisition attempts and
exactly 2 fired outer retries — with the counter at 3 and no further
retry scheduled.  The counter is reset to zero by any successful
permission grant (second conjunct). -/
theorem C3_retry_structure (fuel : Nat) (hfuel : 2 ≤ fuel) :
    ((retryLoop failEnv fuel
        (requestPermission failEnv (initialState "chrome"))).acquisitionAttempts = 12 ∧
      (retryLoop failEnv fuel
        (requestPermission failEnv (initialState "chrome"))).retryAttempts = 3 ∧
      (retryLoop failEnv fuel
        (requestPermission failEnv (initialState "chrome"))).scheduledRetry = false ∧
      (retryLoop failEnv fuel
        (requestPermission failEnv (initialState "chrome"))).statusKind = "error" ∧
      (retryLoop failEnv fuel
        (requestPermission failEnv (initialState "chrome"))).permissionGranted = false) ∧
    (∀ s : RecorderState, (requestPermission goodEnv s).retryAttempts = 0 ∧
      (requestPermission goodEnv s).permissionGranted = true) := by
  constructor
  · obtain ⟨k, rfl⟩ : ∃ k, fuel = (k + 1) + 1 := ⟨fuel - 2, by omega⟩
    rw [retryLoop_step _ _ _ (by decide)]
    rw [show k + 1 = k + 1 from rfl, retryLoop_step _ _ _ (by decide)]
    rw [retryLoop_stable _ _ _ (by decide)]
    decide
  · intro s
    rw [requestPermission, getAudioStream_success goodEnv.outcome _ rfl]
    exact ⟨rfl, rfl⟩

/-- Witness for C3 amended, at fuel 2 (the loop fires exactly its two
scheduled retries). -/
theorem C3_retry_structure_witness :
    ((retryLoop failEnv 2
        (requestPermission failEnv (initialState "chrome"))).acquisitionAttempts = 12 ∧
      (retryLoop failEnv 2
        (requestPermission failEnv (initialState "chrome"))).retryAttempts = 3 ∧
      (retryLoop failEnv 2
        (requestPermission failEnv (initialState "chrome"))).scheduledRetry = false ∧
      (retryLoop failEnv 2
        (requestPermission failEnv (initialState "chrome"))).statusKind = "error" ∧
      (retryLoop failEnv 2
        (requestPermission failEnv (initialState "chrome"))).permissionGranted = false) ∧
    (∀ s : RecorderState, (requestPermission goodEnv s).retryAttempts = 0 ∧
      (requestPermission goodEnv s).permissionGranted = true) :=
  C3_retry_structure 2 (by decide)

/-! ### Claim C4 -/

/-- C4 counterexample: capability negotiation
(`getSupportedMimeTypes`, counted by the `negotiations` ghost field) runs
once during initialization, and a subsequent start-recording request runs
it again — the count after one start is 2, contradicting `exactly once
per page/session lifetime, never re-run by subsequent start-recording
requests`. -/
theorem C4_renegotiation_counterexample :
    (initRecorder goodEnv (some "granted") none (initialState "chrome")).negotiations = 1 ∧
    (startRecording goodEnv
      (initRecorder goodEnv (some "granted") none (initialState "chrome"))).negotiations = 2 := by
  decide

/-- C4 amended: capability negotiation runs once during initialization
and is re-run by every start-recording request (each invocation of
`startRecording` whose feature check passes performs exactly one further
negotiation, whatever path it then takes). -/
theorem C4_negotiation_reruns (env : Env) (live saved : Option String)
    (s : RecorderState) (hf : env.featuresOk = true) :
    (initRecorder env live saved s).negotiations = s.negotiations + 1 ∧
    (startRecording env s).negotiations = s.negotiations + 1 := by
  constructor
  · rw [initRecorder]
    split
    · rw [negotiations_loadPersistedPermissionState, negotiations_checkInitialPermissions]
      exact negotiations_checkBrowserCompatibilityRun env s hf
    · exact negotiations_checkBrowserCompatibilityRun env s hf
  · rw [startRecording]
    split
    · exact negotiations_checkBrowserCompatibilityRun env s hf
    · rw [negotiations_startPermissionPhase]
      exact negotiations_checkBrowserCompatibilityRun env s hf

/-- Witness for C4 amended on the initial chrome state in the
all-succeeding environment. -/
theorem C4_negotiation_reruns_witness :
    (initRecorder goodEnv (some "granted") none (initialState "chrome")).negotiations =
      (initialState "chrome").negotiations + 1 ∧
    (startRecording goodEnv (initialState "chrome")).negotiations =
      (initialState "chrome").negotiations + 1 :=
  C4_negotiation_reruns goodEnv (some "granted") none (initialState "chrome") rfl

/-! ### Claim C5 -/

/-- C5 counterexample: finalizing with an empty captured segment buffer.
The winning `processRecording` (recorder.js:614-632) has no empty-buffer
guard: it produces a zero-byte artifact and exposes it for playback
(`artifactVisible`), contradicting `no artifact is produced or exposed`. -/
theorem C5_empty_buffer_counterexample :
    (processRecording { initialState "chrome" with
        mediaRecorder := some ⟨0, "audio/webm"⟩ }).artifact =
      some ([], "audio/webm") ∧
    (processRecording { initialState "chrome" with
        mediaRecorder := some ⟨0, "audio/webm"⟩ }).artifactVisible = true := by
  decide

/-- C5 amended: finalizing with an empty buffer still produces and
exposes a zero-byte artifact for playback; only the download operation is
guarded against the empty buffer (it produces nothing). -/
theorem C5_empty_buffer_artifact (s : RecorderState) (h : s.audioChunks = []) :
    (processRecording s).artifact =
      some (([] : List Nat), match s.mediaRecorder with
        | some m => m.mimeType
        | none => s.primaryMimeType.getD "") ∧
    (processRecording s).artifactVisible = true ∧
    downloadRecording s = none := by
  refine ⟨?_, rfl, ?_⟩
  · show some (s.audioChunks.flatten, _) = _
    rw [h]
    rfl
  · rw [downloadRecording, if_pos (by simp [h])]

/-- Witness for C5 amended on the empty-buffer state. -/
theorem C5_empty_buffer_artifact_witness :
    (processRecording { initialState "chrome" with
        mediaRecorder := some ⟨0, "audio/webm"⟩ }).artifact =
      some (([] : List Nat), match ({ initialState "chrome" with
          mediaRecorder := some ⟨0, "audio/webm"⟩ } : RecorderState).mediaRecorder with
        | some m => m.mimeType
        | none => ({ initialState "chrome" with
            mediaRecorder := some ⟨0, "audio/webm"⟩ } : RecorderState).primaryMimeType.getD "") ∧
    (processRecording { initialState "chrome" with
        mediaRecorder := some ⟨0, "audio/webm"⟩ }).artifactVisible = true ∧
    downloadRecording { initialState "chrome" with
        mediaRecorder := some ⟨0, "audio/webm"⟩ } = none :=
  C5_empty_buffer_artifact { initialState "chrome" with
      mediaRecorder := some ⟨0, "audio/webm"⟩ } rfl

/-! ### Claim C6 -/

/-- C6: for every environment profile (whose family preference list is
always non-empty, stated as the first conjunct) and every support
predicate, the chosen primary encoding is the first entry of the filtered
candidate list that is also a member of the family preference list
(second conjunct, via the `find?` decomposition); if no filtered entry is
in the preference list it is the first filtered entry (third conjunct);
and whenever any preference-list encoding passes the support predicate
the primary encoding is a preference-list member (contained in the second
conjunct). -/
theorem C6_primary_encoding_selection (name : String) (p : String → Bool)
    (h : supportedOf name p ≠ []) :
    preferredTypes name ≠ [] ∧
    ((∃ x ∈ preferredTypes name, p x = true) →
      ∃ t l1 l2, primaryOf name p = some t ∧ t ∈ preferredTypes name ∧
        supportedOf name p = l1 ++ t :: l2 ∧
        ∀ u ∈ l1, u ∉ preferredTypes name) ∧
    ((∀ u ∈ supportedOf name p, u ∉ preferredTypes name) →
      primaryOf name p = (supportedOf name p).head?) := by
  refine ⟨preferredTypes_ne_nil name, ?_, ?_⟩
  · rintro ⟨x, hxp, hpx⟩
    have hxs : x ∈ supportedOf name p := mem_supportedOf (mem_allTypes_of_pref hxp) hpx
    have hsome : ((supportedOf name p).find?
        (fun t => decide (t ∈ preferredTypes name))).isSome := by
      rw [List.find?_isSome]
      exact ⟨x, hxs, by simp [hxp]⟩
    obtain ⟨t, ht⟩ := Option.isSome_iff_exists.mp hsome
    obtain ⟨hpt, l1, l2, hdecomp, hl1⟩ := List.find?_eq_some.mp ht
    refine ⟨t, l1, l2, ?_, by simpa using hpt, hdecomp, fun u hu => by simpa using hl1 u hu⟩
    rw [primaryOf, ht]
  · intro hall
    have hnone : (supportedOf name p).find?
        (fun t => decide (t ∈ preferredTypes name)) = none := by
      rw [List.find?_eq_none]
      intro x hx
      simp [hall x hx]
    rw [primaryOf, hnone]

/-- Witness for C6: the spec example of §8 transposed to the firefox
family: with support for `audio/webm` only, the primary encoding is
`audio/webm`, a member of the firefox preference list. -/
theorem C6_primary_encoding_selection_witness :
    preferredTypes "firefox" ≠ [] ∧
    ((∃ x ∈ preferredTypes "firefox", (fun t => t == "audio/webm") x = true) →
      ∃ t l1 l2,
        primaryOf "firefox" (fun t => t == "audio/webm") = some t ∧
        t ∈ preferredTypes "firefox" ∧
        supportedOf "firefox" (fun t => t == "audio/webm") = l1 ++ t :: l2 ∧
        ∀ u ∈ l1, u ∉ preferredTypes "firefox") ∧
    ((∀ u ∈ supportedOf "firefox" (fun t => t == "audio/webm"),
        u ∉ preferredTypes "firefox") →
      primaryOf "firefox" (fun t => t == "audio/webm") =
        (supportedOf "firefox" (fun t => t == "audio/webm")).head?) :=
  C6_primary_encoding_selection "firefox" (fun t => t == "audio/webm") (by decide)

/-! ### Claim C7 -/

/-- C7: finalizing a buffer of N non-empty chunks produces exactly one
artifact, the concatenation of the chunks in buffer order, whose byte
length is the sum of the chunk lengths. -/
theorem C7_artifact_length (s : RecorderState)
    (hne : ∀ c ∈ s.audioChunks, c ≠ []) :
    ∃ mime, (processRecording s).artifact = some (s.audioChunks.flatten, mime) ∧
      s.audioChunks.flatten.length = (s.audioChunks.map List.length).sum :=
  ⟨_, rfl, List.length_flatten _⟩

/-- Witness for C7 on a concrete two-chunk buffer of sizes 1 and 2. -/
theorem C7_artifact_length_witness :
    ∃ mime,
      (processRecording { initialState "chrome" with
          audioChunks := [[7], [8, 9]],
          mediaRecorder := some ⟨0, "audio/webm"⟩ }).artifact =
        some (({ initialState "chrome" with
          audioChunks := [[7], [8, 9]],
          mediaRecorder := some ⟨0, "audio/webm"⟩ } : RecorderState).audioChunks.flatten, mime) ∧
      ({ initialState "chrome" with
          audioChunks := [[7], [8, 9]],
          mediaRecorder := some ⟨0, "audio/webm"⟩ } : RecorderState).audioChunks.flatten.length =
        (({ initialState "chrome" with
          audioChunks := [[7], [8, 9]],
          mediaRecorder := some ⟨0, "audio/webm"⟩ } : RecorderState).audioChunks.map
            List.length).sum :=
  C7_artifact_length { initialState "chrome" with
      audioChunks := [[7], [8, 9]],
      mediaRecorder := some ⟨0, "audio/webm"⟩ } (by decide)

/-! ### Claim C8 -/


/-- C8: for every finalized artifact, the download filename extension is
the subtype of the encoding identifier before any codec parameters
(`extensionOf`), with exactly one override: when that subtype is the
default container format (the head of the global fallback list, webm) and
the environment is not in the family whose primary (first) preference is
that format, the universally-playable `wav` is substituted.  The last
conjunct identifies that family: among the known families, exactly chrome
has the default container as its first preference. -/
theorem C8_download_filename_extension (s : RecorderState)
    (hname : s.browserName = "chrome" ∨ s.browserName = "firefox" ∨
             s.browserName = "safari" ∨ s.browserName = "unknown")
    (hne : ¬ s.audioChunks.isEmpty = true) :
    (∃ mime blob, downloadRecording s =
        some ("recording." ++ downloadExtensionOf s.browserName mime, blob) ∧
      downloadExtensionOf s.browserName mime =
        (if extensionOf mime = extensionOf (defaultMimeTypes.headD "") ∧
            s.browserName ≠ "chrome"
         then "wav" else extensionOf mime)) ∧
    (∀ f ∈ knownFamilies,
      ((preferredTypes f).head? = defaultMimeTypes.head? ↔ f = "chrome")) := by
  constructor
  · refine ⟨(match s.mediaRecorder with
        | some m => m.mimeType
        | none => s.primaryMimeType.getD ""), s.audioChunks.flatten, ?_, ?_⟩
    · rw [downloadRecording, if_neg hne]
      rfl
    · have hdef : extensionOf (defaultMimeTypes.headD "") = "webm" := by decide
      rw [hdef]
      generalize (match s.mediaRecorder with
        | some m => m.mimeType
        | none => s.primaryMimeType.getD "") = mime
      rcases hname with h | h | h | h <;> rw [h] <;>
        by_cases he : extensionOf mime = "webm" <;>
          simp [downloadExtensionOf, he, (by decide : strIncludes "chrome" "chrome" = true),
            (by decide : strIncludes "firefox" "chrome" = false),
            (by decide : strIncludes "safari" "chrome" = false),
            (by decide : strIncludes "unknown" "chrome" = false),
            (by decide : ("firefox" : String) ≠ "chrome"),
            (by decide : ("safari" : String) ≠ "chrome"),
            (by decide : ("unknown" : String) ≠ "chrome")]
  · decide

/-- Witness for C8: a firefox session holding a webm recording gets the
`wav` override; the conjunct instance is fully evaluated. -/
theorem C8_download_filename_extension_witness :
    (∃ mime blob, downloadRecording { initialState "firefox" with
          audioChunks := [[1]], mediaRecorder := some ⟨0, "audio/webm"⟩ } =
        some ("recording." ++ downloadExtensionOf
          ({ initialState "firefox" with
              audioChunks := [[1]],
              mediaRecorder := some ⟨0, "audio/webm"⟩ } : RecorderState).browserName mime, blob) ∧
      downloadExtensionOf ({ initialState "firefox" with
          audioChunks := [[1]],
          mediaRecorder := some ⟨0, "audio/webm"⟩ } : RecorderState).browserName mime =
        (if extensionOf mime = extensionOf (defaultMimeTypes.headD "") ∧
            ({ initialState "firefox" with
                audioChunks := [[1]],
                mediaRecorder := some ⟨0, "audio/webm"⟩ } : RecorderState).browserName ≠ "chrome"
         then "wav" else extensionOf mime)) ∧
    (∀ f ∈ knownFamilies,
      ((preferredTypes f).head? = defaultMimeTypes.head? ↔ f = "chrome")) :=
  C8_download_filename_extension _ (Or.inr (Or.inl rfl)) (by decide)

/-! ### Claim C9 -/

/-- C9: invoking `stopRecording` when no recording is in progress (flag
false, or no capture session) leaves the entire session state unchanged:
no flag, stream, buffer or UI field is modified. -/
theorem C9_stop_noop (s : RecorderState)
    (h : s.isRecording = false ∨ s.mediaRecorder = none) :
    stopRecording s = s := by
  rcases h with h | h
  · rw [stopRecording]
    cases hm : s.mediaRecorder with
    | none => rfl
    | some m => simp [h]
  · rw [stopRecording, h]

/-- Witness for C9: a `Ready`-like state with a stale recorder object but
the recording flag down. -/
theorem C9_stop_noop_witness :
    stopRecording { initialState "chrome" with
        mediaRecorder := some ⟨0, "audio/webm"⟩, audioChunks := [[1]] } =
      { initialState "chrome" with
        mediaRecorder := some ⟨0, "audio/webm"⟩, audioChunks := [[1]] } :=
  C9_stop_noop _ (Or.inl rfl)

/-! ### Claim C10 -/


theorem chunksPos_of_eq {s t : RecorderState} (h : chunksPos s)
    (he : t.audioChunks = s.audioChunks) : chunksPos t := by
  rw [chunksPos, he]
  exact h

theorem audioChunks_stopRecording (s : RecorderState) :
    (stopRecording s).audioChunks = s.audioChunks := by
  rw [stopRecording]
  split
  · split <;> rfl
  · rfl

theorem audioChunks_handlePermissionError (s : RecorderState) :
    (handlePermissionError s).audioChunks = s.audioChunks := by
  rw [handlePermissionError]
  split <;> rfl

theorem audioChunks_requestPermission (env : Env) (s : RecorderState) :
    (requestPermission env s).audioChunks = s.audioChunks := by
  rw [requestPermission]
  split
  · rfl
  · rw [audioChunks_handlePermissionError]

theorem audioChunks_handleRecordingError (s : RecorderState) :
    (handleRecordingError s).audioChunks = s.audioChunks := by
  rw [handleRecordingError]
  split <;> simp [releaseStream, updateStatus, audioChunks_stopRecording]

theorem audioChunks_handlePermissionChange (s : RecorderState) (st : String) :
    (handlePermissionChange s st).audioChunks = s.audioChunks := by
  rw [handlePermissionChange]
  split <;> try rfl
  split <;> try rfl
  split <;> rfl

theorem audioChunks_getSupportedMimeTypesRun (p : String → Bool) (s : RecorderState) :
    (getSupportedMimeTypesRun p s).1.audioChunks = s.audioChunks := by
  rw [getSupportedMimeTypesRun]
  split <;> rfl

theorem audioChunks_checkBrowserCompatibilityRun (env : Env) (s : RecorderState) :
    (checkBrowserCompatibilityRun env s).1.audioChunks = s.audioChunks := by
  rw [checkBrowserCompatibilityRun]
  split
  · dsimp only
    split <;> exact audioChunks_getSupportedMimeTypesRun _ _
  · rfl

theorem audioChunks_loadPersistedPermissionState (saved : Option String)
    (s : RecorderState) :
    (loadPersistedPermissionState saved s).audioChunks = s.audioChunks := by
  cases saved with
  | none => rfl
  | some st => exact audioChunks_handlePermissionChange _ _

theorem audioChunks_checkInitialPermissions (live : Option String)
    (s : RecorderState) :
    (checkInitialPermissions live s).audioChunks = s.audioChunks := by
  cases live with
  | none => rfl
  | some st => exact audioChunks_handlePermissionChange _ _

theorem audioChunks_initRecorder (env : Env) (live saved : Option String)
    (s : RecorderState) :
    (initRecorder env live saved s).audioChunks = s.audioChunks := by
  rw [initRecorder]
  split
  · rw [audioChunks_loadPersistedPermissionState, audioChunks_checkInitialPermissions,
      audioChunks_checkBrowserCompatibilityRun]
  · exact audioChunks_checkBrowserCompatibilityRun env s

theorem audioChunks_startCreatePhase (env : Env) (s : RecorderState) (sid : Nat) :
    (startCreatePhase env s sid).audioChunks = s.audioChunks ∨
    (startCreatePhase env s sid).audioChunks = [] := by
  rw [startCreatePhase]
  split
  · split
    · right; rfl
    · split
      · split
        · right; rfl
        · left; exact audioChunks_handleRecordingError s
      · left; exact audioChunks_handleRecordingError s
  · left; exact audioChunks_handleRecordingError s

theorem audioChunks_startAcquirePhase (env : Env) (s : RecorderState) :
    (startAcquirePhase env s).audioChunks = s.audioChunks ∨
    (startAcquirePhase env s).audioChunks = [] := by
  rw [startAcquirePhase]
  dsimp only
  split
  · exact audioChunks_startCreatePhase env _ _
  · left; exact audioChunks_handleRecordingError _

theorem audioChunks_startPermissionPhase (env : Env) (s : RecorderState) :
    (startPermissionPhase env s).audioChunks = s.audioChunks ∨
    (startPermissionPhase env s).audioChunks = [] := by
  rw [startPermissionPhase]
  split
  · rename_i hp
    simp only [hp, Bool.not_true, Bool.false_eq_true, if_false]
    exact audioChunks_startAcquirePhase env s
  · split
    · left; exact audioChunks_requestPermission env s
    · rcases audioChunks_startAcquirePhase env (requestPermission env s) with h | h
      · left; rw [h, audioChunks_requestPermission]
      · right; exact h

theorem audioChunks_startRecording (env : Env) (s : RecorderState) :
    (startRecording env s).audioChunks = s.audioChunks ∨
    (startRecording env s).audioChunks = [] := by
  rw [startRecording]
  split
  · left
    exact audioChunks_checkBrowserCompatibilityRun env s
  · rcases audioChunks_startPermissionPhase env (checkBrowserCompatibilityRun env s).1
      with h | h
    · left; rw [h]; exact audioChunks_checkBrowserCompatibilityRun env s
    · right; exact h

/-- C10: every chunk appended to the captured segment buffer has size
strictly greater than zero — `ondataavailable` discards zero-size data
events — and the positivity invariant on the buffer is preserved by every
operation of the session. -/
theorem C10_buffer_chunks_positive (env : Env) (live saved : Option String)
    (s : RecorderState) (d : List Nat) (h : chunksPos s) :
    chunksPos (ondataavailable s d) ∧
    chunksPos (startRecording env s) ∧
    chunksPos (stopRecording s) ∧
    chunksPos (onstopEvent s) ∧
    chunksPos (requestPermission env s) ∧
    chunksPos (handleRecordingError s) ∧
    chunksPos (initRecorder env live saved s) := by
  refine ⟨?_, ?_, ?_, ?_, ?_, ?_, ?_⟩
  · rw [ondataavailable]
    split
    · intro c hc
      rcases List.mem_append.mp hc with hc | hc
      · exact h c hc
      · rcases List.mem_singleton.mp hc with rfl
        omega
    · exact h
  · rcases audioChunks_startRecording env s with he | he
    · exact chunksPos_of_eq h he
    · intro c hc
      rw [he] at hc
      simp at hc
  · exact chunksPos_of_eq h (audioChunks_stopRecording s)
  · exact chunksPos_of_eq h rfl
  · exact chunksPos_of_eq h (audioChunks_requestPermission env s)
  · exact chunksPos_of_eq h (audioChunks_handleRecordingError s)
  · exact chunksPos_of_eq h (audioChunks_initRecorder env live saved s)

/-- Witness for C10 on a concrete recording state holding one non-empty
chunk and an incoming 2-byte data event. -/
theorem C10_buffer_chunks_positive_witness :
    chunksPos (ondataavailable { initialState "chrome" with
        audioChunks := [[5]], isRecording := true,
        mediaRecorder := some ⟨0, "audio/webm"⟩ } [6, 7]) ∧
    chunksPos (startRecording goodEnv { initialState "chrome" with
        audioChunks := [[5]], isRecording := true,
        mediaRecorder := some ⟨0, "audio/webm"⟩ }) ∧
    chunksPos (stopRecording { initialState "chrome" with
        audioChunks := [[5]], isRecording := true,
        mediaRecorder := some ⟨0, "audio/webm"⟩ }) ∧
    chunksPos (onstopEvent { initialState "chrome" with
        audioChunks := [[5]], isRecording := true,
        mediaRecorder := some ⟨0, "audio/webm"⟩ }) ∧
    chunksPos (requestPermission goodEnv { initialState "chrome" with
        audioChunks := [[5]], isRecording := true,
        mediaRecorder := some ⟨0, "audio/webm"⟩ }) ∧
    chunksPos (handleRecordingError { initialState "chrome" with
        audioChunks := [[5]], isRecording := true,
        mediaRecorder := some ⟨0, "audio/webm"⟩ }) ∧
    chunksPos (initRecorder goodEnv (some "granted") none
      { initialState "chrome" with
        audioChunks := [[5]], isRecording := true,
        mediaRecorder := some ⟨0, "audio/webm"⟩ }) :=
  C10_buffer_chunks_positive goodEnv (some "granted") none
    { initialState "chrome" with
      audioChunks := [[5]], isRecording := true,
      mediaRecorder := some ⟨0, "audio/webm"⟩ } [6, 7] (by decide)


end Recorder
